import Mathlib

/-!
Shallow embedding, in Lean 4, of the fitbit-analysis client
(`src/util/auth.py`, `src/core/util.py`, `src/core/api.py`).

Conventions of the embedding:
* Python strings are Lean `String`s; byte strings are `List Nat` with
  each entry < 256.
* Fallible Python functions (ones that `raise`) return `Except`.
* Network and file effects are made explicit: HTTP responses are
  supplied through an environment record `Env`, and the side effects
  performed by `api_request` (GETs, token refresh/persist, diagnostic
  prints) are returned as a trace of `Effect`s.
* `re.match(pattern, s)` with the patterns used in `api.py`
  (`^\d\d\d\d-\d\d-\d\d$` and `^\d\d:\d\d$`) is translated directly:
  the match is anchored at the start of the string, and the `$` anchor
  (no MULTILINE flag) succeeds at the end of the string or just before
  a single terminal newline.  `\d` is narrowed to ASCII digits.
-/

namespace Fitbit

/-- From `core/constants.py`: the Fitbit API root. -/
def API_ROOT : String := "https://api.fitbit.com"

/-- Python `$` anchor (no MULTILINE): given the characters remaining
after the explicit part of the pattern has been consumed, the anchor
succeeds when nothing remains, or when exactly one terminal newline
remains. -/
def dollar_anchor (rest : List Char) : Bool :=
  match rest with
  | [] => true
  | [c] => c == '\n'
  | _ => false

/-- The test `re.match(r"^\d\d\d\d-\d\d-\d\d$", s)` from
`check_date_format_wrapper`, as a Boolean on the character list:
four digits, a hyphen, two digits, a hyphen, two digits, then `$`. -/
def matches_date_pattern (l : List Char) : Bool :=
  match l with
  | y1 :: y2 :: y3 :: y4 :: h1 :: m1 :: m2 :: h2 :: d1 :: d2 :: rest =>
      y1.isDigit && y2.isDigit && y3.isDigit && y4.isDigit &&
      (h1 == '-') && m1.isDigit && m2.isDigit && (h2 == '-') &&
      d1.isDigit && d2.isDigit && dollar_anchor rest
  | _ => false

/-- The test `re.match(r"^\d\d:\d\d$", s)` from `check_time_format_wrapper`:
two digits, a colon, two digits, then `$`. -/
def matches_time_pattern (l : List Char) : Bool :=
  match l with
  | h1 :: h2 :: c :: m1 :: m2 :: rest =>
      h1.isDigit && h2.isDigit && (c == ':') && m1.isDigit && m2.isDigit &&
      dollar_anchor rest
  | _ => false

/-- From `core/api.py`, `check_date_format_wrapper`: returns the input date
when the regex matches or the input is the literal `today`, raises
`ValueError` otherwise. -/
def check_date_format_wrapper (date : String) : Except String String :=
  if matches_date_pattern date.data then Except.ok date
  else if date = "today" then Except.ok date
  else Except.error "date should match 'yyyy-MM-dd' format, or 'today'"

/-- From `core/api.py`, `check_time_format_wrapper`: returns the input time
when the regex matches, raises `ValueError` otherwise. -/
def check_time_format_wrapper (time : String) : Except String String :=
  if matches_time_pattern time.data then Except.ok time
  else Except.error "time should match 'HH:mm' format"

/-- From `core/api.py`, `check_detail_level_wrapper`: membership in the
endpoint's allowed detail levels. -/
def check_detail_level_wrapper (detail_level : String)
    (valid_detail_levels : List String) : Except String String :=
  if valid_detail_levels.contains detail_level then Except.ok detail_level
  else Except.error ("detail_level " ++ detail_level ++ " should be one of the valid detail levels.")

/-- From `core/api.py`, `check_period_wrapper`: membership in the endpoint's
allowed periods. -/
def check_period_wrapper (period : String)
    (valid_periods : List String) : Except String String :=
  if valid_periods.contains period then Except.ok period
  else Except.error ("period " ++ period ++ " should be one of the valid periods.")

/-- The token dict produced by `core/util.py` `load_tokens`: user id,
access token and refresh token keyed entries of the secrets file. -/
structure Tokens where
  user_id : String
  access_token : String
  refresh_token : String

/-- The secrets file record (`secrets.toml`): registered app identity
plus the current token pair and user id. -/
structure Secrets where
  client_id : String
  client_secret : String
  user_id : String
  access_token : String
  refresh_token : String

/-- An access/refresh token pair as returned by the token endpoint
(`access_token` / `refresh_token` keys of the JSON response). -/
structure TokenPair where
  access_token : String
  refresh_token : String

/-- From `core/util.py`, `load_tokens`: projects the user id, access token
and refresh token out of the secrets record. -/
def load_tokens (secrets : Secrets) : Tokens :=
  { user_id := secrets.user_id
    access_token := secrets.access_token
    refresh_token := secrets.refresh_token }

/-- The in-memory swap of lines 38-40 of `core/util.py`
`refresh_token`: the fresh pair replaces the old one in the secrets
record.  This is the value line 43 then fails to persist (see
`refresh_token`). -/
def swapped_secrets (newPair : TokenPair) (secrets : Secrets) : Secrets :=
  { secrets with
    access_token := newPair.access_token
    refresh_token := newPair.refresh_token }

/-- Parsed JSON values, as produced by `json.loads` on a response body.
A `Response.content` is carried in already-parsed form; a 401 body
whose shape lacks `errors[0].errorType` models the bodies on which
the Python lookup chain raises. -/
inductive Json where
  | null
  | bool (b : Bool)
  | num (n : Int)
  | str (s : String)
  | arr (items : List Json)
  | obj (fields : List (String × Json))

/-- Python dict access `d[key]` on a JSON object's field list: the
value at the first matching key, `none` when the key is absent. -/
def lookupField : List (String × Json) → String → Option Json
  | [], _ => none
  | (k, v) :: rest, key => if k = key then some v else lookupField rest key

/-- The lookup chain `json.loads(response.content)['errors'][0]['errorType']`
from `api_request`.  `none` models the inputs on which Python raises
(body not a JSON object, no `errors` key, empty or non-array `errors`,
element without an `errorType` key). -/
def extract_error_type (body : Json) : Option Json :=
  match body with
  | Json.obj fields =>
      match lookupField fields "errors" with
      | some (Json.arr (e0 :: _)) =>
          match e0 with
          | Json.obj efields => lookupField efields "errorType"
          | _ => none
      | _ => none
  | _ => none

/-- Python `value == "expired_token"` on a parsed JSON value: true
exactly when the value is that string (comparison with a non-string
JSON value is `False`, not an error). -/
def Json.isStrEq (j : Json) (s : String) : Bool :=
  match j with
  | Json.str t => t = s
  | _ => false

/-- An HTTP response as seen by `api_request`: status code and
(parsed) body. -/
structure Response where
  status_code : Nat
  content : Json

/-- The effects a call can perform, in order: a GET with the given url
and `Authorization` header value, the token-endpoint refresh request
made inside `refresh_token(config_file)`, the reload that
`load_tokens(config_file)` would do after a successful persist, and
the two diagnostic prints issued before re-raising a
`raise_for_status` error. -/
inductive Effect where
  | get (url : String) (authorization : String)
  | refreshRequest
  | loadTokens
  | logStatus (code : Nat)
  | logContent (body : Json)

/-- The exceptions `api_request` can raise: `ValueError` from the
validators, `requests.HTTPError` from `raise_for_status` (the spec's
`ApiRequestError`, carrying status and raw body), the
KeyError/TypeError/IndexError family raised when a 401 body does not
expose `errors[0].errorType`, and the `AttributeError` raised by the
`toml.dump(secrets, path)` persist inside `refresh_token`. -/
inductive PyError where
  | valueError (msg : String)
  | apiRequestError (status_code : Nat) (content : Json)
  | errorBodyLookup
  | attributeError

/-- From `core/util.py`, `refresh_token`: reads the secrets record,
obtains a fresh pair from the token endpoint (the `Effect.refreshRequest`
in the trace; the callee `auth.request_new_token_pair` is not part of
the repository sources — modelled from the spec as returning a
brand-new access/refresh `TokenPair`, the `newPair` argument), swaps
it into the in-memory record (`swapped_secrets`), and then persists
with `toml.dump(secrets, config[...])` at line 43.  That call passes a
path string where `toml.dump` requires a file object (compare the
correct `with open(...) as f: toml.dump(secrets, f)` in
`scripts/authorize.py`), so it raises `AttributeError` on every
execution: the function never returns, and nothing is persisted. -/
def refresh_token (newPair : TokenPair) (secrets : Secrets) :
    List Effect × Except PyError Secrets :=
  let _updated := swapped_secrets newPair secrets
  ([Effect.refreshRequest], Except.error PyError.attributeError)

/-- The environment a single `api_request` call runs in: the response
to the first GET, the secrets record the credential store holds when
`refresh_token` reads it, the pair the token endpoint returns
(`auth.request_new_token_pair` — modelled from the spec, see
`refresh_token`), and the response a retried GET would get. -/
structure Env where
  firstResponse : Response
  secrets : Secrets
  newPair : TokenPair
  retryResponse : Response

/-- The `response.raise_for_status()` / `return json.loads(response.content)`
tail of `api_request`: `raise_for_status` raises exactly for status
codes in [400, 600); on an error the status and body are printed
before re-raising. -/
def raise_for_status_and_return (trace : List Effect) (r : Response) :
    List Effect × Except PyError Json :=
  if 400 ≤ r.status_code ∧ r.status_code < 600 then
    (trace ++ [Effect.logStatus r.status_code, Effect.logContent r.content],
     Except.error (PyError.apiRequestError r.status_code r.content))
  else
    (trace, Except.ok r.content)

/-- From `core/api.py`, `api_request`: GET with a Bearer header built from
the caller's tokens; on a 401 whose body's `errors[0].errorType`
equals `"expired_token"`, call `refresh_token(config_file)`, reload
the tokens, rebuild the header and issue the GET once more; then
`raise_for_status` on whatever response is current and return its
parsed body.  An exception from `refresh_token` propagates — and since
its persist step always raises `AttributeError`, the reload-and-retry
lines after it, translated here as written, are never reached. -/
def api_request (env : Env) (tokens : Tokens) (url : String) :
    List Effect × Except PyError Json :=
  let headers := "Bearer " ++ tokens.access_token
  let response := env.firstResponse
  let trace := [Effect.get url headers]
  if response.status_code = 401 then
    match extract_error_type response.content with
    | none => (trace, Except.error PyError.errorBodyLookup)
    | some error_type =>
        if error_type.isStrEq "expired_token" then
          let refreshed := refresh_token env.newPair env.secrets
          match refreshed.2 with
          | Except.error e => (trace ++ refreshed.1, Except.error e)
          | Except.ok secrets2 =>
              let tokens2 := load_tokens secrets2
              let headers2 := "Bearer " ++ tokens2.access_token
              let trace2 := trace ++ refreshed.1 ++ [Effect.loadTokens,
                                                     Effect.get url headers2]
              raise_for_status_and_return trace2 env.retryResponse
        else
          raise_for_status_and_return trace response
  else
    raise_for_status_and_return trace response

/-- The claim's notion of the response judged "after at most one
expiry-triggered retry": the retried response when the first response
is an expired-token 401, the first response otherwise.  (With the
broken persist in `refresh_token`, the expired-token path actually
crashes before any retry, so execution reaches `raise_for_status` only
with the first response.) -/
def final_response (env : Env) : Response :=
  if env.firstResponse.status_code = 401 then
    match extract_error_type env.firstResponse.content with
    | some error_type =>
        if error_type.isStrEq "expired_token" then env.retryResponse
        else env.firstResponse
    | none => env.firstResponse
  else
    env.firstResponse

/-- Validation and URL construction of `_HeartRate.by_date` (in the
source these steps run inline before the `api_request` call). -/
def by_date_url (tokens : Tokens) (date : String) (period : String) :
    Except String String := do
  let VALID_PERIODS := ["1d", "7d", "30d", "1w", "1m"]
  if !(VALID_PERIODS.contains period) then
    throw ("period " ++ period ++ " should be one of the valid periods.")
  let date ← check_date_format_wrapper date
  pure (API_ROOT ++ "/1/user/" ++ tokens.user_id ++
        "/activities/heart/date/" ++ date ++ "/" ++ period ++ ".json")

/-- Validation and URL construction of `_HeartRate.by_date_range`. -/
def by_date_range_url (tokens : Tokens) (start_date end_date : String) :
    Except String String := do
  let start_date ← check_date_format_wrapper start_date
  let end_date ← check_date_format_wrapper end_date
  pure (API_ROOT ++ "/1/user/" ++ tokens.user_id ++
        "/activities/heart/date/" ++ start_date ++ "/" ++ end_date ++ ".json")

/-- Validation and URL construction of `_HeartRate.by_date_intraday`:
date, detail level (out of four), the both-or-neither time pairing
check (`(start_time != None) != (end_time != None)`), time formats,
then the URL with the `/time/{start_time}/{end_time}` segment exactly
when both times were supplied. -/
def by_date_intraday_url (tokens : Tokens) (date : String)
    (detail_level : String) (start_time end_time : Option String) :
    Except String String := do
  let date ← check_date_format_wrapper date
  let detail_level ← check_detail_level_wrapper detail_level ["1sec", "1min", "5min", "15min"]
  if start_time.isSome != end_time.isSome then
    throw "Only one start/end time provided, should be neither or both."
  let start_time ← match start_time with
    | none => pure (none : Option String)
    | some t => do pure (some (← check_time_format_wrapper t))
  let end_time ← match end_time with
    | none => pure (none : Option String)
    | some t => do pure (some (← check_time_format_wrapper t))
  let url := API_ROOT ++ "/1/user/" ++ tokens.user_id ++
             "/activities/heart/date/" ++ date ++ "/1d/" ++ detail_level
  let url := match start_time, end_time with
    | some st, some et => url ++ "/time/" ++ st ++ "/" ++ et
    | _, _ => url
  pure (url ++ ".json")

/-- Validation and URL construction of `_HeartRate.by_interval_intraday`:
detail level (out of `['1sec', '1min']`), the two dates, the
both-or-neither time pairing check, time formats, then the URL with
the `/time/{start_time}/{end_time}` segment exactly when both times
were supplied.  No check relates the date range to the time window:
that combination is left to the server. -/
def by_interval_intraday_url (tokens : Tokens) (start_date end_date : String)
    (detail_level : String) (start_time end_time : Option String) :
    Except String String := do
  let detail_level ← check_detail_level_wrapper detail_level ["1sec", "1min"]
  let start_date ← check_date_format_wrapper start_date
  let end_date ← check_date_format_wrapper end_date
  if start_time.isSome != end_time.isSome then
    throw "Only one start/end time provided, should be neither or both."
  let start_time ← match start_time with
    | none => pure (none : Option String)
    | some t => do pure (some (← check_time_format_wrapper t))
  let end_time ← match end_time with
    | none => pure (none : Option String)
    | some t => do pure (some (← check_time_format_wrapper t))
  let url := API_ROOT ++ "/1/user/" ++ tokens.user_id ++
             "/activities/heart/date/" ++ start_date ++ "/" ++ end_date ++ "/" ++ detail_level
  let url := match start_time, end_time with
    | some st, some et => url ++ "/time/" ++ st ++ "/" ++ et
    | _, _ => url
  pure (url ++ ".json")

/-- Method `_HeartRate.by_date_intraday`: validate, build the URL, delegate
to `api_request`.  A validation failure is a `ValueError` raised
before any request is made (empty effect trace). -/
def by_date_intraday (env : Env) (tokens : Tokens) (date : String)
    (detail_level : String) (start_time end_time : Option String) :
    List Effect × Except PyError Json :=
  match by_date_intraday_url tokens date detail_level start_time end_time with
  | Except.error e => ([], Except.error (PyError.valueError e))
  | Except.ok url => api_request env tokens url

/-- Method `_HeartRate.by_interval_intraday`: validate, build the URL,
delegate to `api_request`. -/
def by_interval_intraday (env : Env) (tokens : Tokens)
    (start_date end_date : String) (detail_level : String)
    (start_time end_time : Option String) :
    List Effect × Except PyError Json :=
  match by_interval_intraday_url tokens start_date end_date detail_level start_time end_time with
  | Except.error e => ([], Except.error (PyError.valueError e))
  | Except.ok url => api_request env tokens url

/-- UTF-8 encoding of one code point, as Python `str.encode()` does. -/
def utf8EncodeChar (c : Nat) : List Nat :=
  if c < 0x80 then [c]
  else if c < 0x800 then [0xC0 + c / 0x40, 0x80 + c % 0x40]
  else if c < 0x10000 then
    [0xE0 + c / 0x1000, 0x80 + c / 0x40 % 0x40, 0x80 + c % 0x40]
  else
    [0xF0 + c / 0x40000, 0x80 + c / 0x1000 % 0x40, 0x80 + c / 0x40 % 0x40,
     0x80 + c % 0x40]

/-- Python `s.encode()`: the UTF-8 bytes of a string. -/
def str_encode (s : String) : List Nat :=
  (s.data.map (fun c => utf8EncodeChar c.toNat)).flatten

/-- Truncation to a 32-bit word. -/
def w32 (n : Nat) : Nat := n % 4294967296

/-- The 32-bit right rotation. -/
def rotr32 (x n : Nat) : Nat := w32 ((x >>> n) ||| (x <<< (32 - n)))

/-- SHA-256 `Ch(x, y, z)`. -/
def sha256Ch (x y z : Nat) : Nat := (x &&& y) ^^^ ((x ^^^ 4294967295) &&& z)

/-- SHA-256 `Maj(x, y, z)`. -/
def sha256Maj (x y z : Nat) : Nat := (x &&& y) ^^^ (x &&& z) ^^^ (y &&& z)

/-- SHA-256 big Sigma0. -/
def bigSigma0 (x : Nat) : Nat := rotr32 x 2 ^^^ rotr32 x 13 ^^^ rotr32 x 22

/-- SHA-256 big Sigma1. -/
def bigSigma1 (x : Nat) : Nat := rotr32 x 6 ^^^ rotr32 x 11 ^^^ rotr32 x 25

/-- SHA-256 small sigma0. -/
def smallSigma0 (x : Nat) : Nat := rotr32 x 7 ^^^ rotr32 x 18 ^^^ (x >>> 3)

/-- SHA-256 small sigma1. -/
def smallSigma1 (x : Nat) : Nat := rotr32 x 17 ^^^ rotr32 x 19 ^^^ (x >>> 10)

/-- The 64 SHA-256 round constants. -/
def sha256K : List Nat :=
  [1116352408, 1899447441, 3049323471, 3921009573, 961987163, 1508970993,
   2453635748, 2870763221, 3624381080, 310598401, 607225278, 1426881987,
   1925078388, 2162078206, 2614888103, 3248222580, 3835390401, 4022224774,
   264347078, 604807628, 770255983, 1249150122, 1555081692, 1996064986,
   2554220882, 2821834349, 2952996808, 3210313671, 3336571891, 3584528711,
   113926993, 338241895, 666307205, 773529912, 1294757372, 1396182291,
   1695183700, 1986661051, 2177026350, 2456956037, 2730485921, 2820302411,
   3259730800, 3345764771, 3516065817, 3600352804, 4094571909, 275423344,
   430227734, 506948616, 659060556, 883997877, 958139571, 1322822218,
   1537002063, 1747873779, 1955562222, 2024104815, 2227730452, 2361852424,
   2428436474, 2756734187, 3204031479, 3329325298]

/-- The SHA-256 initial hash value. -/
def sha256H0 : List Nat :=
  [1779033703, 3144134277, 1013904242, 2773480762,
   1359893119, 2600822924, 528734635, 1541459225]

/-- Big-endian 32-bit words from a byte list (groups of four). -/
def bytesToWords : List Nat → List Nat
  | b1 :: b2 :: b3 :: b4 :: rest =>
      (b1 * 16777216 + b2 * 65536 + b3 * 256 + b4) :: bytesToWords rest
  | _ => []

/-- Extend a 16-word block schedule by `n` further words. -/
def extendSchedule : List Nat → Nat → List Nat
  | ws, 0 => ws
  | ws, n + 1 =>
      let t := ws.length
      let wNew := w32 (smallSigma1 (ws.getD (t - 2) 0) + ws.getD (t - 7) 0 +
                       smallSigma0 (ws.getD (t - 15) 0) + ws.getD (t - 16) 0)
      extendSchedule (ws ++ [wNew]) n

/-- One SHA-256 compression round on the state `[a,b,c,d,e,f,g,h]`. -/
def sha256Round (st : List Nat) (wt kt : Nat) : List Nat :=
  match st with
  | [a, b, c, d, e, f, g, h] =>
      let t1 := w32 (h + bigSigma1 e + sha256Ch e f g + kt + wt)
      let t2 := w32 (bigSigma0 a + sha256Maj a b c)
      [w32 (t1 + t2), a, b, c, w32 (d + t1), e, f, g]
  | st => st

/-- Process one 64-byte block: schedule, 64 rounds, add into `H`. -/
def sha256Block (H : List Nat) (block : List Nat) : List Nat :=
  let ws := extendSchedule (bytesToWords block) 48
  let st := (ws.zip sha256K).foldl (fun s p => sha256Round s p.1 p.2) H
  (H.zip st).map (fun p => w32 (p.1 + p.2))

/-- Process a padded message 64 bytes at a time.  The first argument
is fuel bounding the number of bytes left, so the recursion is
structural and computable by the kernel. -/
def sha256Loop : Nat → List Nat → List Nat → List Nat
  | _, H, [] => H
  | 0, H, _ => H
  | fuel + 1, H, msg => sha256Loop fuel (sha256Block H (msg.take 64)) (msg.drop 64)

/-- The 8 big-endian bytes of a 64-bit length field. -/
def beBytes8 (n : Nat) : List Nat :=
  [n / 72057594037927936 % 256, n / 281474976710656 % 256,
   n / 1099511627776 % 256, n / 4294967296 % 256,
   n / 16777216 % 256, n / 65536 % 256, n / 256 % 256, n % 256]

/-- Big-endian bytes of each 32-bit word, concatenated. -/
def wordsToBytes (ws : List Nat) : List Nat :=
  (ws.map (fun w => [w / 16777216 % 256, w / 65536 % 256, w / 256 % 256, w % 256])).flatten

/-- SHA-256 of a byte list (`hashlib.sha256(...).digest()`): pad with
`0x80`, zeros, and the 64-bit bit length, then compress each 64-byte
block into the chaining value and serialize it. -/
def sha256 (msg : List Nat) : List Nat :=
  let l := msg.length
  let padded := msg ++ 128 :: List.replicate ((64 - (l + 9) % 64) % 64) 0 ++ beBytes8 (8 * l)
  wordsToBytes (sha256Loop padded.length sha256H0 padded)

/-- The URL-safe base64 alphabet (`base64.urlsafe_b64encode`: the
standard alphabet with `-` and `_` in place of `+` and `/`). -/
def b64urlAlphabet : List Char :=
  String.data "ABCDEFGHIJKLMNOPQRSTUVWXYZabcdefghijklmnopqrstuvwxyz0123456789-_"

/-- The alphabet character for a 6-bit group. -/
def b64char (n : Nat) : Char := b64urlAlphabet.getD (n % 64) 'A'

/-- Python `base64.urlsafe_b64encode` on a byte list: three bytes become four
alphabet characters; a trailing group of one or two bytes is padded
with `=` to four characters. -/
def urlsafe_b64encode : List Nat → List Char
  | [] => []
  | [b1] => [b64char (b1 / 4), b64char (b1 % 4 * 16), '=', '=']
  | [b1, b2] => [b64char (b1 / 4), b64char (b1 % 4 * 16 + b2 / 16),
                 b64char (b2 % 16 * 4), '=']
  | b1 :: b2 :: b3 :: rest =>
      b64char (b1 / 4) :: b64char (b1 % 4 * 16 + b2 / 16) ::
      b64char (b2 % 16 * 4 + b3 / 64) :: b64char (b3 % 64) ::
      urlsafe_b64encode rest

/-- Unpadded URL-safe base64: the same groups with no `=` characters.
This is the normal form both `rstrip` and `replace` reach; it is a
proof-side companion of `urlsafe_b64encode`, not a source function. -/
def b64encodeNoPad : List Nat → List Char
  | [] => []
  | [b1] => [b64char (b1 / 4), b64char (b1 % 4 * 16)]
  | [b1, b2] => [b64char (b1 / 4), b64char (b1 % 4 * 16 + b2 / 16),
                 b64char (b2 % 16 * 4)]
  | b1 :: b2 :: b3 :: rest =>
      b64char (b1 / 4) :: b64char (b1 % 4 * 16 + b2 / 16) ::
      b64char (b2 % 16 * 4 + b3 / 64) :: b64char (b3 % 64) ::
      b64encodeNoPad rest

/-- Python `bytes.rstrip(b'=')` on a character list: drop the maximal
run of `=` characters at the end. -/
def rstripPad (l : List Char) : List Char :=
  (l.reverse.dropWhile (fun c => c == '=')).reverse

/-- Python `secrets.token_urlsafe(nbytes)`: URL-safe base64 of `nbytes`
random bytes with the `=` padding stripped from the end.  The random
bytes drawn from the CSPRNG are the explicit argument here; the
Python `nbytes` parameter is their count. -/
def token_urlsafe (randomBytes : List Nat) : String :=
  String.mk (rstripPad (urlsafe_b64encode randomBytes))

/-- From `util/auth.py`, `make_code_verifier`: `token_urlsafe` applied to
`bytes_of_randomness` CSPRNG bytes (the drawn bytes are the explicit
argument, as in `token_urlsafe`). -/
def make_code_verifier (randomBytes : List Nat) : String :=
  token_urlsafe randomBytes

/-- From `util/auth.py`, `make_code_challenge`: SHA-256 the verifier's
UTF-8 bytes, URL-safe base64 encode the digest, and remove every `=`
(`str.replace('=', '')` removes all occurrences). -/
def make_code_challenge (code_verifier : String) : String :=
  String.mk ((urlsafe_b64encode (sha256 (str_encode code_verifier))).filter
    (fun c => c != '='))

/-- The spec's wording of challenge derivation: URL-safe base64 of the
SHA-256 of the verifier's bytes with the trailing `=` padding
stripped.  Proof-side definition, to be compared with
`make_code_challenge`. -/
def code_challenge_spec (code_verifier : String) : String :=
  String.mk (rstripPad (urlsafe_b64encode (sha256 (str_encode code_verifier))))

/-- The spec's strict `YYYY-MM-DD` shape: exactly four digits, a
hyphen, two digits, a hyphen, two digits — ten characters, nothing
more.  Proof-side definition written from the spec's words, to be
compared with the regex acceptance the code has. -/
def spec_strict_date (s : String) : Bool :=
  match s.data with
  | [y1, y2, y3, y4, h1, m1, m2, h2, d1, d2] =>
      y1.isDigit && y2.isDigit && y3.isDigit && y4.isDigit &&
      (h1 == '-') && m1.isDigit && m2.isDigit && (h2 == '-') &&
      d1.isDigit && d2.isDigit
  | _ => false

/-- The strict `YYYY-MM-DD` shape followed by a single trailing
newline: the extra inputs the `$` anchor lets through. -/
def spec_strict_date_nl (s : String) : Bool :=
  match s.data with
  | [y1, y2, y3, y4, h1, m1, m2, h2, d1, d2, nl] =>
      y1.isDigit && y2.isDigit && y3.isDigit && y4.isDigit &&
      (h1 == '-') && m1.isDigit && m2.isDigit && (h2 == '-') &&
      d1.isDigit && d2.isDigit && (nl == '\n')
  | _ => false

/-- The spec's strict `HH:mm` shape: two digits, a colon, two digits —
five characters, nothing more. -/
def spec_strict_time (s : String) : Bool :=
  match s.data with
  | [h1, h2, c, m1, m2] =>
      h1.isDigit && h2.isDigit && (c == ':') && m1.isDigit && m2.isDigit
  | _ => false

/-- The strict `HH:mm` shape followed by a single trailing newline. -/
def spec_strict_time_nl (s : String) : Bool :=
  match s.data with
  | [h1, h2, c, m1, m2, nl] =>
      h1.isDigit && h2.isDigit && (c == ':') && m1.isDigit && m2.isDigit &&
      (nl == '\n')
  | _ => false

/-- A concrete token dict, for witness instantiations. -/
def tokens0 : Tokens :=
  { user_id := "USER123", access_token := "OLD_ACCESS", refresh_token := "OLD_REFRESH" }

/-- A concrete secrets record, for witness instantiations. -/
def secrets0 : Secrets :=
  { client_id := "CLIENT", client_secret := "SECRET", user_id := "USER123",
    access_token := "OLD_ACCESS", refresh_token := "OLD_REFRESH" }

/-- A concrete fresh token pair, for witness instantiations. -/
def pair0 : TokenPair :=
  { access_token := "NEW_ACCESS", refresh_token := "NEW_REFRESH" }

/-- A 401 body reporting `errorType = "expired_token"`. -/
def expiredBody : Json :=
  Json.obj [("errors", Json.arr [Json.obj [("errorType", Json.str "expired_token")]])]

/-- A 401 body reporting a different `errorType`. -/
def otherErrorBody : Json :=
  Json.obj [("errors", Json.arr [Json.obj [("errorType", Json.str "invalid_token")]])]

/-- Environment: first response is a 401 with an expired-token body,
the retried request succeeds with a 200. -/
def envExpired : Env :=
  { firstResponse := { status_code := 401, content := expiredBody }
    secrets := secrets0
    newPair := pair0
    retryResponse := { status_code := 200, content := Json.str "payload" } }

/-- Environment: first response is a 401 with a non-expiry error body. -/
def envOther : Env :=
  { firstResponse := { status_code := 401, content := otherErrorBody }
    secrets := secrets0
    newPair := pair0
    retryResponse := { status_code := 200, content := Json.str "payload" } }

/-- Environment: first response is a 300 with a body; no retry happens. -/
def env300 : Env :=
  { firstResponse := { status_code := 300, content := Json.str "redirect-body" }
    secrets := secrets0
    newPair := pair0
    retryResponse := { status_code := 200, content := Json.str "payload" } }

/-- Environment: first response is a plain 500 error. -/
def env500 : Env :=
  { firstResponse := { status_code := 500, content := Json.str "server-error" }
    secrets := secrets0
    newPair := pair0
    retryResponse := { status_code := 200, content := Json.str "payload" } }

/-! ### Properties of the base64 layer -/

theorem b64char_ne_pad (n : Nat) : b64char n ≠ '=' := by
  have h : n % 64 < 64 := Nat.mod_lt _ (by norm_num)
  have hall : ∀ m, m < 64 → b64urlAlphabet.getD m 'A' ≠ '=' := by decide
  exact hall _ h

theorem b64char_mem (n : Nat) : b64char n ∈ b64urlAlphabet := by
  have h : n % 64 < 64 := Nat.mod_lt _ (by norm_num)
  have hall : ∀ m, m < 64 → b64urlAlphabet.getD m 'A' ∈ b64urlAlphabet := by decide
  exact hall _ h

theorem b64char_beq_pad (n : Nat) : (b64char n == '=') = false := by
  have := b64char_ne_pad n
  simp [this]

theorem b64char_bne_pad (n : Nat) : (b64char n != '=') = true := by
  simp [bne, b64char_beq_pad]

theorem noPad_ne_nil (b : Nat) (rest : List Nat) : b64encodeNoPad (b :: rest) ≠ [] := by
  match rest with
  | [] => simp [b64encodeNoPad]
  | [b2] => simp [b64encodeNoPad]
  | b2 :: b3 :: rest2 => simp [b64encodeNoPad]

theorem dropWhile_reverse_encode : ∀ bs : List Nat,
    (urlsafe_b64encode bs).reverse.dropWhile (fun c => c == '=') = (b64encodeNoPad bs).reverse
  | [] => by simp [urlsafe_b64encode, b64encodeNoPad]
  | [b1] => by
      simp [urlsafe_b64encode, b64encodeNoPad, List.dropWhile, b64char_beq_pad]
  | [b1, b2] => by
      simp [urlsafe_b64encode, b64encodeNoPad, List.dropWhile, b64char_beq_pad]
  | [b1, b2, b3] => by
      simp [urlsafe_b64encode, b64encodeNoPad, List.dropWhile, b64char_beq_pad]
  | b1 :: b2 :: b3 :: b4 :: rest => by
      have ih := dropWhile_reverse_encode (b4 :: rest)
      have hne : b64encodeNoPad (b4 :: rest) ≠ [] := noPad_ne_nil b4 rest
      simp only [urlsafe_b64encode, b64encodeNoPad, List.reverse_cons, List.append_assoc]
      rw [List.dropWhile_append, ih]
      simp [hne]


theorem filter_encode : ∀ bs : List Nat,
    (urlsafe_b64encode bs).filter (fun c => c != '=') = b64encodeNoPad bs
  | [] => by simp [urlsafe_b64encode, b64encodeNoPad]
  | [b1] => by simp [urlsafe_b64encode, b64encodeNoPad, List.filter, b64char_bne_pad]
  | [b1, b2] => by simp [urlsafe_b64encode, b64encodeNoPad, List.filter, b64char_bne_pad]
  | [b1, b2, b3] => by simp [urlsafe_b64encode, b64encodeNoPad, List.filter, b64char_bne_pad]
  | b1 :: b2 :: b3 :: b4 :: rest => by
      have ih := filter_encode (b4 :: rest)
      simp only [urlsafe_b64encode, b64encodeNoPad, List.filter, b64char_bne_pad]
      simp [ih]

theorem rstripPad_encode (bs : List Nat) :
    rstripPad (urlsafe_b64encode bs) = b64encodeNoPad bs := by
  unfold rstripPad
  rw [dropWhile_reverse_encode, List.reverse_reverse]

theorem noPad_length : ∀ bs : List Nat,
    (b64encodeNoPad bs).length = (4 * bs.length + 2) / 3
  | [] => by simp [b64encodeNoPad]
  | [b1] => by simp [b64encodeNoPad]
  | [b1, b2] => by simp [b64encodeNoPad]
  | [b1, b2, b3] => by simp [b64encodeNoPad]
  | b1 :: b2 :: b3 :: b4 :: rest => by
      have ih := noPad_length (b4 :: rest)
      simp only [b64encodeNoPad, List.length_cons, ih, List.length_cons]
      omega

theorem noPad_mem : ∀ bs : List Nat, ∀ c ∈ b64encodeNoPad bs, c ∈ b64urlAlphabet
  | [] => by simp [b64encodeNoPad]
  | [b1] => by
      simp only [b64encodeNoPad, List.mem_cons, List.not_mem_nil, or_false]
      rintro c (rfl | rfl) <;> exact b64char_mem _
  | [b1, b2] => by
      simp only [b64encodeNoPad, List.mem_cons, List.not_mem_nil, or_false]
      rintro c (rfl | rfl | rfl) <;> exact b64char_mem _
  | [b1, b2, b3] => by
      simp only [b64encodeNoPad, List.mem_cons, List.not_mem_nil, or_false]
      rintro c (rfl | rfl | rfl | rfl) <;> exact b64char_mem _
  | b1 :: b2 :: b3 :: b4 :: rest => by
      have ih := noPad_mem (b4 :: rest)
      simp only [b64encodeNoPad, List.mem_cons]
      rintro c (rfl | rfl | rfl | rfl | hc)
      · exact b64char_mem _
      · exact b64char_mem _
      · exact b64char_mem _
      · exact b64char_mem _
      · exact ih c hc


/-! ### Claims about the PKCE generator (C4, C5) -/

set_option maxRecDepth 4000

/-- C4 counterexample: at `entropyBytes = 97` (which satisfies
`entropyBytes >= 32`), the verifier is 130 characters long, outside
[43, 128], so the claim's universal length bound fails. -/
theorem make_code_verifier_length_counterexample :
    32 ≤ (List.replicate 97 0).length ∧
    (make_code_verifier (List.replicate 97 0)).length = 130 ∧
    ¬ ((make_code_verifier (List.replicate 97 0)).length ≤ 128) := by
  refine ⟨by decide, ?_, ?_⟩ <;> decide

/-- C4 (amended): for `32 ≤ entropyBytes ≤ 96`, `make_code_verifier`
produces a string over the unreserved URL-safe-base64 alphabet with
length in [43, 128]. -/
theorem make_code_verifier_alphabet_and_length (bs : List Nat)
    (h32 : 32 ≤ bs.length) (h96 : bs.length ≤ 96) :
    (∀ c ∈ (make_code_verifier bs).data, c ∈ b64urlAlphabet) ∧
    43 ≤ (make_code_verifier bs).length ∧
    (make_code_verifier bs).length ≤ 128 := by
  have hdata : (make_code_verifier bs).data = b64encodeNoPad bs := by
    show (String.mk (rstripPad (urlsafe_b64encode bs))).data = _
    rw [rstripPad_encode]
  have hlen : (make_code_verifier bs).length = (4 * bs.length + 2) / 3 := by
    show (make_code_verifier bs).data.length = _
    rw [hdata, noPad_length]
  refine ⟨?_, ?_, ?_⟩
  · rw [hdata]; exact noPad_mem bs
  · rw [hlen]; omega
  · rw [hlen]; omega

/-- Witness for the amended C4 theorem at 32 zero bytes. -/
theorem make_code_verifier_alphabet_and_length_witness :
    32 ≤ (List.replicate 32 0).length ∧ (List.replicate 32 0).length ≤ 96 ∧
    ((∀ c ∈ (make_code_verifier (List.replicate 32 0)).data, c ∈ b64urlAlphabet) ∧
     43 ≤ (make_code_verifier (List.replicate 32 0)).length ∧
     (make_code_verifier (List.replicate 32 0)).length ≤ 128) :=
  ⟨by decide, by decide,
   make_code_verifier_alphabet_and_length (List.replicate 32 0) (by decide) (by decide)⟩

/-- C5: `make_code_challenge` agrees with the spec's derivation
(URL-safe base64 of the SHA-256 of the verifier's bytes, trailing `=`
padding stripped) on every verifier; on the documented test verifier
it returns the documented challenge; and it is deterministic. -/
theorem make_code_challenge_spec_and_vector :
    (∀ v : String, make_code_challenge v = code_challenge_spec v) ∧
    make_code_challenge "01234567890123456789012345678901234567890123456789" =
      "-4cf-Mzo_qg9-uq0F4QwWhRh4AjcAqNx7SbYVsdmyQM" ∧
    (∀ v : String, make_code_challenge v = make_code_challenge v) := by
  refine ⟨?_, by decide, fun v => rfl⟩
  intro v
  unfold make_code_challenge code_challenge_spec
  rw [filter_encode, rstripPad_encode]


/-! ### Claims about the parameter validators (C6, C7, C10) -/

theorem matches_date_eq (s : String) :
    matches_date_pattern s.data = (spec_strict_date s || spec_strict_date_nl s) := by
  obtain ⟨l⟩ := s
  show matches_date_pattern l = (spec_strict_date ⟨l⟩ || spec_strict_date_nl ⟨l⟩)
  rcases l with _ | ⟨c1, _ | ⟨c2, _ | ⟨c3, _ | ⟨c4, _ | ⟨c5, _ | ⟨c6, _ | ⟨c7, _ | ⟨c8, _ | ⟨c9, _ | ⟨c10, _ | ⟨c11, _ | ⟨c12, rest⟩⟩⟩⟩⟩⟩⟩⟩⟩⟩⟩⟩ <;>
    simp [matches_date_pattern, spec_strict_date, spec_strict_date_nl, dollar_anchor]

theorem matches_time_eq (s : String) :
    matches_time_pattern s.data = (spec_strict_time s || spec_strict_time_nl s) := by
  obtain ⟨l⟩ := s
  show matches_time_pattern l = (spec_strict_time ⟨l⟩ || spec_strict_time_nl ⟨l⟩)
  rcases l with _ | ⟨c1, _ | ⟨c2, _ | ⟨c3, _ | ⟨c4, _ | ⟨c5, _ | ⟨c6, _ | ⟨c7, rest⟩⟩⟩⟩⟩⟩⟩ <;>
    simp [matches_time_pattern, spec_strict_time, spec_strict_time_nl, dollar_anchor]


/-- C6 counterexample: `check_date_format_wrapper` returns the input
`"2022-08-15\n"` unchanged, although that input is neither the literal
`today` nor of the strict ten-character `YYYY-MM-DD` shape, so the
claimed "exactly when" characterization fails there. -/
theorem check_date_newline_counterexample :
    check_date_format_wrapper "2022-08-15\n" = Except.ok "2022-08-15\n" ∧
    ¬ ("2022-08-15\n" = "today" ∨ spec_strict_date "2022-08-15\n" = true) := by
  exact ⟨rfl, by decide⟩

/-- C6 (amended): `check_date_format_wrapper` returns its input
unchanged exactly when the input is the literal `today`, matches the
strict 4-2-2 digit `YYYY-MM-DD` shape, or is such a shape followed by
a single trailing newline; it raises `ValueError` otherwise.  No
calendar plausibility is checked. -/
theorem check_date_format_wrapper_characterization (s : String) :
    check_date_format_wrapper s =
      (if s = "today" ∨ spec_strict_date s = true ∨ spec_strict_date_nl s = true
       then Except.ok s
       else Except.error "date should match 'yyyy-MM-dd' format, or 'today'") := by
  unfold check_date_format_wrapper
  rw [matches_date_eq s]
  by_cases h1 : spec_strict_date s = true <;>
    by_cases h2 : spec_strict_date_nl s = true <;>
      by_cases h3 : s = "today" <;>
        simp [h1, h2, h3]

/-- C7 counterexample: `check_time_format_wrapper` returns the input
`"07:00\n"` unchanged, although that input is not of the strict
five-character `HH:mm` shape, so the claimed "exactly when"
characterization fails there. -/
theorem check_time_newline_counterexample :
    check_time_format_wrapper "07:00\n" = Except.ok "07:00\n" ∧
    ¬ (spec_strict_time "07:00\n" = true) := by
  exact ⟨rfl, by decide⟩

/-- C7 (amended): `check_time_format_wrapper` returns its input
unchanged exactly when the input matches the strict 2-2 digit `HH:mm`
shape or is such a shape followed by a single trailing newline; it
raises `ValueError` otherwise.  No range check is performed. -/
theorem check_time_format_wrapper_characterization (s : String) :
    check_time_format_wrapper s =
      (if spec_strict_time s = true ∨ spec_strict_time_nl s = true
       then Except.ok s
       else Except.error "time should match 'HH:mm' format") := by
  unfold check_time_format_wrapper
  rw [matches_time_eq s]
  by_cases h1 : spec_strict_time s = true <;>
    by_cases h2 : spec_strict_time_nl s = true <;>
      simp [h1, h2]

/-- C10: both validators accept an input carrying a single trailing
newline and return it unchanged, and the newline-carrying values flow
unmodified into the request URL the intraday accessor builds. -/
theorem trailing_newline_accepted :
    check_date_format_wrapper "2022-08-15\n" = Except.ok "2022-08-15\n" ∧
    check_time_format_wrapper "07:00\n" = Except.ok "07:00\n" ∧
    by_date_intraday_url tokens0 "2022-08-15\n" "1min" (some "07:00\n") (some "13:00") =
      Except.ok "https://api.fitbit.com/1/user/USER123/activities/heart/date/2022-08-15\n/1d/1min/time/07:00\n/13:00.json" := by
  exact ⟨rfl, rfl, rfl⟩


/-! ### Claims about the intraday accessors (C8, C9) -/

/-- C8: for both intraday accessors, with an otherwise valid date,
detail level and time formats, validation fails exactly when one and
only one of `start_time` and `end_time` is supplied. -/
theorem intraday_time_pairing (tokens : Tokens) (date sd ed dl1 dl2 : String)
    (st et : Option String)
    (hd : check_date_format_wrapper date = Except.ok date)
    (hsd : check_date_format_wrapper sd = Except.ok sd)
    (hed : check_date_format_wrapper ed = Except.ok ed)
    (hdl1 : (["1sec", "1min", "5min", "15min"] : List String).contains dl1 = true)
    (hdl2 : (["1sec", "1min"] : List String).contains dl2 = true)
    (hst : ∀ t, st = some t → check_time_format_wrapper t = Except.ok t)
    (het : ∀ t, et = some t → check_time_format_wrapper t = Except.ok t) :
    ((∃ e, by_date_intraday_url tokens date dl1 st et = Except.error e) ↔
      (st.isSome != et.isSome) = true) ∧
    ((∃ e, by_interval_intraday_url tokens sd ed dl2 st et = Except.error e) ↔
      (st.isSome != et.isSome) = true) := by
  constructor
  · unfold by_date_intraday_url check_detail_level_wrapper
    rw [hd, hdl1]
    rcases st with _ | s <;> rcases et with _ | t
    · simp [Bind.bind, Except.bind, pure, Except.pure]
    · simp [Bind.bind, Except.bind, pure, Except.pure]
    · simp [Bind.bind, Except.bind, pure, Except.pure]
    · simp [Bind.bind, Except.bind, pure, Except.pure, hst s rfl, het t rfl]
  · unfold by_interval_intraday_url check_detail_level_wrapper
    rw [hsd, hed, hdl2]
    rcases st with _ | s <;> rcases et with _ | t
    · simp [Bind.bind, Except.bind, pure, Except.pure]
    · simp [Bind.bind, Except.bind, pure, Except.pure]
    · simp [Bind.bind, Except.bind, pure, Except.pure]
    · simp [Bind.bind, Except.bind, pure, Except.pure, hst s rfl, het t rfl]


/-- C9: with valid dates and a valid detail level,
`by_interval_intraday_url` raises no local error for any
both-or-neither time combination — in particular for a multi-day
range combined with a time window — and returns the endpoint URL,
appending the `/time/{start_time}/{end_time}` segment exactly when
both times are given; the accessor then delegates that URL to
`api_request`, leaving combination validity to the server. -/
theorem by_interval_intraday_passthrough (tokens : Tokens) (sd ed dl : String)
    (hsd : check_date_format_wrapper sd = Except.ok sd)
    (hed : check_date_format_wrapper ed = Except.ok ed)
    (hdl : (["1sec", "1min"] : List String).contains dl = true) :
    (by_interval_intraday_url tokens sd ed dl none none =
       Except.ok (API_ROOT ++ "/1/user/" ++ tokens.user_id ++
         "/activities/heart/date/" ++ sd ++ "/" ++ ed ++ "/" ++ dl ++ ".json")) ∧
    (∀ st et : String, check_time_format_wrapper st = Except.ok st →
       check_time_format_wrapper et = Except.ok et →
       by_interval_intraday_url tokens sd ed dl (some st) (some et) =
         Except.ok (API_ROOT ++ "/1/user/" ++ tokens.user_id ++
           "/activities/heart/date/" ++ sd ++ "/" ++ ed ++ "/" ++ dl ++
           "/time/" ++ st ++ "/" ++ et ++ ".json")) ∧
    (∀ env : Env, ∀ st et : String, check_time_format_wrapper st = Except.ok st →
       check_time_format_wrapper et = Except.ok et →
       by_interval_intraday env tokens sd ed dl (some st) (some et) =
         api_request env tokens (API_ROOT ++ "/1/user/" ++ tokens.user_id ++
           "/activities/heart/date/" ++ sd ++ "/" ++ ed ++ "/" ++ dl ++
           "/time/" ++ st ++ "/" ++ et ++ ".json")) := by
  have h1 : by_interval_intraday_url tokens sd ed dl none none =
      Except.ok (API_ROOT ++ "/1/user/" ++ tokens.user_id ++
        "/activities/heart/date/" ++ sd ++ "/" ++ ed ++ "/" ++ dl ++ ".json") := by
    unfold by_interval_intraday_url check_detail_level_wrapper
    rw [hsd, hed, hdl]
    simp [Bind.bind, Except.bind, pure, Except.pure, String.append_assoc]
  have h2 : ∀ st et : String, check_time_format_wrapper st = Except.ok st →
      check_time_format_wrapper et = Except.ok et →
      by_interval_intraday_url tokens sd ed dl (some st) (some et) =
        Except.ok (API_ROOT ++ "/1/user/" ++ tokens.user_id ++
          "/activities/heart/date/" ++ sd ++ "/" ++ ed ++ "/" ++ dl ++
          "/time/" ++ st ++ "/" ++ et ++ ".json") := by
    intro st et hst het
    unfold by_interval_intraday_url check_detail_level_wrapper
    rw [hsd, hed, hdl]
    simp [Bind.bind, Except.bind, pure, Except.pure, hst, het, String.append_assoc]
  refine ⟨h1, h2, ?_⟩
  intro env st et hst het
  unfold by_interval_intraday
  rw [h2 st et hst het]


/-- Witness for C8: supplying only `start_time` fails validation for
both intraday accessors; the pairing XOR is true there. -/
theorem intraday_time_pairing_witness :
    ((∃ e, by_date_intraday_url tokens0 "2022-08-15" "1min" (some "07:00") none = Except.error e) ↔
      ((some "07:00" : Option String).isSome != (none : Option String).isSome) = true) ∧
    ((∃ e, by_interval_intraday_url tokens0 "2022-08-11" "2022-08-14" "1sec" (some "07:00") none = Except.error e) ↔
      ((some "07:00" : Option String).isSome != (none : Option String).isSome) = true) :=
  intraday_time_pairing tokens0 "2022-08-15" "2022-08-11" "2022-08-14" "1min" "1sec"
    (some "07:00") none rfl rfl rfl rfl rfl
    (fun t ht => by injection ht with h; subst h; rfl)
    (fun t ht => Option.noConfusion ht)

/-- Witness for C9: a multi-day range combined with a time window is
not rejected locally; the URL carries the time segment. -/
theorem by_interval_intraday_passthrough_witness :
    by_interval_intraday_url tokens0 "2022-08-11" "2022-08-14" "1min" (some "07:00") (some "13:00") =
      Except.ok (API_ROOT ++ "/1/user/" ++ tokens0.user_id ++
        "/activities/heart/date/" ++ "2022-08-11" ++ "/" ++ "2022-08-14" ++ "/" ++ "1min" ++
        "/time/" ++ "07:00" ++ "/" ++ "13:00" ++ ".json") :=
  (by_interval_intraday_passthrough tokens0 "2022-08-11" "2022-08-14" "1min" rfl rfl rfl).2.1
    "07:00" "13:00" rfl rfl


/-! ### Claims about the request executor (C1, C2, C3) -/

/-- C1 (code bug): the claim describes refresh-persist-retry, but on a
first 401 reporting `errorType = "expired_token"` the program calls
`refresh_token`, whose persist step `toml.dump(secrets, path)` at
`core/util.py:43` raises `AttributeError` — `toml.dump` requires a
file object, as the correct usage in `scripts/authorize.py` shows.
`api_request` therefore propagates that error after the single GET and
the token-endpoint refresh request: nothing is persisted, no tokens
are reloaded, no retried GET is issued, and no retried body is ever
returned. -/
theorem api_request_expired_token_crashes (env : Env) (tokens : Tokens) (url : String)
    (h401 : env.firstResponse.status_code = 401)
    (hexp : extract_error_type env.firstResponse.content = some (Json.str "expired_token")) :
    api_request env tokens url =
      ([Effect.get url ("Bearer " ++ tokens.access_token), Effect.refreshRequest],
       Except.error PyError.attributeError) := by
  unfold api_request refresh_token
  simp [h401, hexp, Json.isStrEq]

/-- Witness for the C1 code-bug theorem at the concrete expired-token
environment: the call crashes with the `AttributeError`. -/
theorem api_request_expired_token_crashes_witness :
    envExpired.firstResponse.status_code = 401 ∧
    extract_error_type envExpired.firstResponse.content = some (Json.str "expired_token") ∧
    api_request envExpired tokens0 "https://api.fitbit.com/x" =
      ([Effect.get "https://api.fitbit.com/x" ("Bearer " ++ tokens0.access_token),
        Effect.refreshRequest],
       Except.error PyError.attributeError) :=
  ⟨rfl, rfl,
   api_request_expired_token_crashes envExpired tokens0 "https://api.fitbit.com/x" rfl rfl⟩

/-- C3: on a first 401 whose parsed body reports an `errorType` other
than `"expired_token"`, `api_request` performs no refresh and no
second GET, and raises `ApiRequestError` for the first response
immediately (after printing the diagnostics). -/
theorem api_request_other_error_type_no_refresh (env : Env) (tokens : Tokens) (url : String)
    (et : Json)
    (h401 : env.firstResponse.status_code = 401)
    (het : extract_error_type env.firstResponse.content = some et)
    (hne : et.isStrEq "expired_token" = false) :
    (api_request env tokens url).1 =
      [Effect.get url ("Bearer " ++ tokens.access_token),
       Effect.logStatus 401, Effect.logContent env.firstResponse.content] ∧
    (api_request env tokens url).2 =
      Except.error (PyError.apiRequestError 401 env.firstResponse.content) := by
  unfold api_request
  simp [h401, het, hne, raise_for_status_and_return]

/-- Witness for C3 in the concrete environment whose 401 body reports
`errorType = "invalid_token"`. -/
theorem api_request_other_error_type_no_refresh_witness :
    envOther.firstResponse.status_code = 401 ∧
    extract_error_type envOther.firstResponse.content = some (Json.str "invalid_token") ∧
    (Json.str "invalid_token").isStrEq "expired_token" = false ∧
    ((api_request envOther tokens0 "https://api.fitbit.com/x").1 =
       [Effect.get "https://api.fitbit.com/x" ("Bearer " ++ tokens0.access_token),
        Effect.logStatus 401, Effect.logContent envOther.firstResponse.content] ∧
     (api_request envOther tokens0 "https://api.fitbit.com/x").2 =
       Except.error (PyError.apiRequestError 401 envOther.firstResponse.content)) :=
  ⟨rfl, rfl, rfl,
   api_request_other_error_type_no_refresh envOther tokens0 "https://api.fitbit.com/x"
     (Json.str "invalid_token") rfl rfl rfl⟩


/-- C2 counterexample: in `env300` the only response has status 300 —
not in the 2xx range — yet `api_request` returns its parsed body as a
success instead of failing with `ApiRequestError`
(`raise_for_status` only raises for statuses in [400, 600)). -/
theorem api_request_non2xx_claim_counterexample :
    (final_response env300).status_code = 300 ∧
    ¬ (200 ≤ (final_response env300).status_code ∧ (final_response env300).status_code < 300) ∧
    (api_request env300 tokens0 "https://api.fitbit.com/x").2 = Except.ok (Json.str "redirect-body") := by
  refine ⟨rfl, ?_, rfl⟩
  decide

/-- Helper: `Json.isStrEq` is true exactly on the equal string value. -/
theorem isStrEq_true_iff (j : Json) (s : String) :
    j.isStrEq s = true ↔ j = Json.str s := by
  cases j <;> simp [Json.isStrEq]

/-- C2 (amended): whenever the first response has a status in
[400, 600) — including a 401 — and its body, when the status is 401,
exposes an `errors[0].errorType` other than `"expired_token"`,
`api_request` logs that status and body and fails with
`ApiRequestError` carrying them; in particular it returns no parsed
payload then.  (The expired-token 401 path instead crashes with the
`AttributeError` from `refresh_token`'s broken persist before any
retry — see the C1 theorem — so no retried response is ever judged.) -/
theorem api_request_error_range (env : Env) (tokens : Tokens) (url : String)
    (hnoexp : ¬ (env.firstResponse.status_code = 401 ∧
       extract_error_type env.firstResponse.content = some (Json.str "expired_token")))
    (hparse : env.firstResponse.status_code = 401 → extract_error_type env.firstResponse.content ≠ none)
    (h400 : 400 ≤ (final_response env).status_code)
    (h600 : (final_response env).status_code < 600) :
    (api_request env tokens url).2 =
      Except.error (PyError.apiRequestError (final_response env).status_code (final_response env).content) ∧
    ∃ t, (api_request env tokens url).1 =
      t ++ [Effect.logStatus (final_response env).status_code,
            Effect.logContent (final_response env).content] := by
  by_cases h401 : env.firstResponse.status_code = 401
  · rcases hty : extract_error_type env.firstResponse.content with _ | et
    · exact absurd hty (hparse h401)
    · have hne : et.isStrEq "expired_token" = false := by
        rcases Bool.eq_false_or_eq_true (et.isStrEq "expired_token") with h | h
        · refine absurd ⟨h401, ?_⟩ hnoexp
          rw [hty, (isStrEq_true_iff et _).mp h]
        · exact h
      have hfin : final_response env = env.firstResponse := by
        unfold final_response
        simp [h401, hty, hne]
      have hmain : api_request env tokens url =
          raise_for_status_and_return [Effect.get url ("Bearer " ++ tokens.access_token)]
            env.firstResponse := by
        unfold api_request
        simp [h401, hty, hne]
      rw [hfin] at h400 h600 ⊢
      rw [hmain]
      unfold raise_for_status_and_return
      rw [if_pos (And.intro h400 h600)]
      exact ⟨rfl, ⟨_, rfl⟩⟩
  · have hfin : final_response env = env.firstResponse := by
      unfold final_response
      simp [h401]
    have hmain : api_request env tokens url =
        raise_for_status_and_return [Effect.get url ("Bearer " ++ tokens.access_token)]
          env.firstResponse := by
      unfold api_request
      simp [h401]
    rw [hfin] at h400 h600 ⊢
    rw [hmain]
    unfold raise_for_status_and_return
    rw [if_pos (And.intro h400 h600)]
    exact ⟨rfl, ⟨_, rfl⟩⟩

/-- Witness for the amended C2 theorem in the concrete environment
whose only response is a plain 500. -/
theorem api_request_error_range_witness :
    (400 ≤ (final_response env500).status_code ∧ (final_response env500).status_code < 600) ∧
    ((api_request env500 tokens0 "https://api.fitbit.com/x").2 =
       Except.error (PyError.apiRequestError (final_response env500).status_code (final_response env500).content) ∧
     ∃ t, (api_request env500 tokens0 "https://api.fitbit.com/x").1 =
       t ++ [Effect.logStatus (final_response env500).status_code,
             Effect.logContent (final_response env500).content]) :=
  ⟨⟨by decide, by decide⟩,
   api_request_error_range env500 tokens0 "https://api.fitbit.com/x"
     (fun h => absurd h.1 (by decide)) (fun h => absurd h (by decide))
     (by decide) (by decide)⟩


end Fitbit
